import Mathlib

/-!
Shallow embedding of the process-supervision core of the repository:
`mwaa/subprocess/subprocess.py` (class `Subprocess`, function
`run_subprocesses`) together with the `throttle` decorator from
`mwaa/logging/utils.py`.

Modelling decisions, all read off the Python source:

* Time is `Int` (seconds).  `time.time()` values are supplied as explicit
  arguments; the throttle comparison `current_time - last_called[0] < seconds`
  is translated verbatim on `Int`.
* `@throttle(60)` is applied to `Subprocess._check_process_conditions` when
  the *class body* is evaluated, so the closure cell `last_called = [0.0]`
  is created exactly once and is shared by every instance of `Subprocess`
  in the process.  The embedding therefore threads a single throttle
  timestamp `tl : Int` through every step of every supervisor.
* The child process and the OS are the environment: each step is given a
  `StepEnv` describing what the non-blocking `readline` returned, what
  `poll()` returned, what each condition's `check` would answer, whether a
  condition's `check` raises, and how the child reacts to the kill protocol.
* Observable side effects (reads, log lines, signals, waits) are recorded
  in an explicit event trace.
* Exceptions are `Except`; the error value carries the mutated state at the
  raise point, because in Python mutations made before an exception persist.
-/

/-- The `ProcessStatus` enum from `mwaa/subprocess/__init__.py`, as used by
`subprocess.py`. -/
inductive ProcessStatus where
  | RUNNING_WITH_NO_LOG_READ
  | RUNNING_WITH_LOG_READ
  | FINISHED_WITH_LOG_READ
  | FINISHED_WITH_NO_MORE_LOGS
  deriving DecidableEq, Repr

/-- `ProcessConditionResponse`: `successful` flag plus a `message`. -/
structure ProcessConditionResponse where
  successful : Bool
  message : String
  deriving DecidableEq, Repr

/-- Observable side effects of the supervisor, recorded as a trace.

`readLine` is the non-blocking `process.stdout.readline()` call;
`logLine` is a line forwarded to the process logger at info level;
`checkConditions` is an actual (non-throttled) invocation of the conditions'
`check` methods; `errorLog` is the `module_logger.error` call listing the
messages of all failed conditions; `sigterm` is `process.terminate()`;
`sigkill` is `process.kill()`; `waitPatience` is
`process.communicate(timeout=sigterm_patience_interval)`; `waitReap` stands
for an unbounded wait for the child (`process.wait()` /
`process.communicate()` with no timeout) — the source never performs one,
so the embedding never emits it, but the vocabulary includes it so that its
absence is expressible. -/
inductive Event where
  | readLine
  | logLine (s : String)
  | checkConditions
  | errorLog (msgs : List String)
  | sigterm
  | sigkill
  | waitPatience
  | waitReap
  deriving DecidableEq, Repr

/-- How the child process behaves when `Subprocess._kill` runs:

`alreadyExited`: `process.poll() is not None` at entry to `_kill`;
`terminateRaises`: `process.terminate()` raises `OSError`;
`exitsWithinPatience`: `process.communicate(timeout=...)` returns rather
than raising `TimeoutExpired`;
`trailingOutput`: the output collected by `communicate` when it returns
(`b""` if none). -/
structure KillEnv where
  alreadyExited : Bool
  terminateRaises : Bool
  exitsWithinPatience : Bool
  trailingOutput : String
  deriving DecidableEq, Repr

/-- Environment of one `execution_loop_iter` call:

`now`: the value `time.time()` returns inside the throttle wrapper;
`line`: what the non-blocking `readline` returns (`""` for no data);
`finished`: whether `process.poll() is not None`;
`condResponses`: the responses the conditions would return if `check` is
actually invoked this step;
`condRaises`: whether some condition's `check` raises this step;
`killEnv`: the child's behaviour should the kill protocol run this step. -/
structure StepEnv where
  now : Int
  line : String
  finished : Bool
  condResponses : List ProcessConditionResponse
  condRaises : Bool
  killEnv : KillEnv
  deriving DecidableEq, Repr

/-- The per-supervisor mutable state of a `Subprocess` object: the `Popen`
handle (`process`, modelled as an opaque pid) and `process_status`.  The
`process_status` attribute does not exist before `start()` in Python; it is
modelled as `RUNNING_WITH_NO_LOG_READ` here, which is sound because every
source path reads it only after `start()` assigned it (`execution_loop_iter`
raises on a null handle before touching it). -/
structure SubprocessState where
  process : Option Nat
  process_status : ProcessStatus
  deriving DecidableEq, Repr

namespace Subprocess

/-- A freshly constructed `Subprocess`: `self.process = None`. -/
def initial : SubprocessState :=
  { process := none, process_status := ProcessStatus.RUNNING_WITH_NO_LOG_READ }

/-- `Subprocess._capture_output_line_from_process`: one non-blocking
`readline`, a poll, and the status computed from the two, logging the line
if one was read.  Returns the new status and the events emitted. -/
def capture_output_line_from_process (line : String) (finished : Bool) :
    ProcessStatus × List Event :=
  if line = "" ∧ finished then
    (ProcessStatus.FINISHED_WITH_NO_MORE_LOGS, [Event.readLine])
  else if line ≠ "" then
    ((if finished then ProcessStatus.FINISHED_WITH_LOG_READ
      else ProcessStatus.RUNNING_WITH_LOG_READ),
     [Event.readLine, Event.logLine line])
  else
    (ProcessStatus.RUNNING_WITH_NO_LOG_READ, [Event.readLine])

/-- `Subprocess._kill`: graceful-then-forceful escalation.  Returns the
events emitted. -/
def kill (env : KillEnv) : List Event :=
  if env.alreadyExited then []
  else
    [Event.sigterm]
      ++ (if env.terminateRaises then [Event.sigkill] else [])
      ++ [Event.waitPatience]
      ++ (if env.exitsWithinPatience then
            (if env.trailingOutput ≠ "" then [Event.logLine env.trailingOutput]
             else [])
          else [Event.sigkill])

/-- The wrapper produced by `@throttle(60)` around
`Subprocess._check_process_conditions`, from `mwaa/logging/utils.py`.
`tl` is the shared `last_called[0]` cell.  When throttled the wrapper
returns `None` (here `none`) without touching the conditions; otherwise it
updates `last_called[0]` and invokes the conditions, returning the list of
failed (unsuccessful) responses. -/
def check_process_conditions (tl now : Int)
    (condResponses : List ProcessConditionResponse) :
    Option (List ProcessConditionResponse) × Int × List Event :=
  if now - tl < 60 then (none, tl, [])
  else
    (some (condResponses.filter (fun c => ¬ c.successful)), now,
     [Event.checkConditions])

/-- `Subprocess.execution_loop_iter`.  Takes the state, the shared throttle
timestamp and the step environment; returns either the new state, new
throttle timestamp, the boolean return value and the emitted events, or an
error (the raised exception's message) together with the state as mutated
up to the raise point. -/
def execution_loop_iter (st : SubprocessState) (tl : Int) (e : StepEnv) :
    Except (SubprocessState × Int × String)
      (SubprocessState × Int × Bool × List Event) :=
  match st.process with
  | none => Except.error (st, tl, "Process is not started")
  | some _ =>
    if st.process_status = ProcessStatus.FINISHED_WITH_NO_MORE_LOGS then
      Except.ok (st, tl, false, [])
    else
      let cap := capture_output_line_from_process e.line e.finished
      let st1 : SubprocessState := { st with process_status := cap.1 }
      let gate := check_process_conditions tl e.now e.condResponses
      -- The throttle wrapper updates last_called[0] before calling the
      -- function, so a raising check still leaves the timestamp updated.
      if e.condRaises ∧ (gate.1).isSome then
        Except.error (st1, gate.2.1, "condition check raised")
      else
        let failed := (gate.1).getD []
        if failed ≠ [] then
          let st2 : SubprocessState :=
            { st1 with
                process_status := ProcessStatus.FINISHED_WITH_NO_MORE_LOGS }
          Except.ok (st2, gate.2.1, false,
            cap.2 ++ gate.2.2 ++ [Event.errorLog (failed.map (fun c => c.message))]
              ++ kill e.killEnv)
        else
          Except.ok (st1, gate.2.1,
            st1.process_status ≠ ProcessStatus.FINISHED_WITH_NO_MORE_LOGS,
            cap.2 ++ gate.2.2)

/-- `Subprocess.stop`: if a handle exists, run the kill protocol and clear
the handle; otherwise do nothing. -/
def stop (st : SubprocessState) (env : KillEnv) : SubprocessState × List Event :=
  match st.process with
  | none => (st, [])
  | some _ => ({ st with process := none }, kill env)

/-- `Subprocess.close`: `stop()` then each condition's `close()` (the
latter does not touch the supervisor state). -/
def close (st : SubprocessState) (env : KillEnv) : SubprocessState × List Event :=
  stop st env

/-- The `while self.execution_loop_iter(): ...` loop inside `start` when
`auto_enter_execution_loop=True`.  `envs` supplies the environment of each
successive iteration; the list doubles as fuel.  The 1-second idle sleep
has no further observable effect and is not recorded. -/
def auto_loop (st : SubprocessState) (tl : Int) :
    List StepEnv → Except (SubprocessState × Int × String) (SubprocessState × Int)
  | [] => Except.ok (st, tl)
  | e :: rest =>
    match execution_loop_iter st tl e with
    | Except.error err => Except.error err
    | Except.ok (st2, tl2, cont, _) =>
      if cont then auto_loop st2 tl2 rest else Except.ok (st2, tl2)

/-- `Subprocess.start`: conditions' `prepare()`, then inside `try`:
spawn the child, set `process_status`, and (when `autoLoop`) run the
execution loop; any exception is caught and logged, so `start` always
returns normally, keeping the mutations made before the raise.
`spawnOk` is whether `subprocess.Popen` succeeds; on failure the handle
keeps its previous value (the assignment never happens). -/
def start (st : SubprocessState) (spawnOk : Bool) (autoLoop : Bool)
    (tl : Int) (envs : List StepEnv) (pid : Nat) : SubprocessState × Int :=
  if spawnOk then
    let st1 : SubprocessState :=
      { st with
          process := some pid,
          process_status := ProcessStatus.RUNNING_WITH_NO_LOG_READ }
    if autoLoop then
      match auto_loop st1 tl envs with
      | Except.ok (st2, tl2) => (st2, tl2)
      | Except.error (st2, tl2, _) => (st2, tl2)
    else (st1, tl)
  else (st, tl)

/-- One step of the execution loop seen purely as a state transformer:
Python objects keep the mutations made before a raise, so the error branch
keeps the carried state. -/
def stepState (st : SubprocessState) (tl : Int) (e : StepEnv) :
    SubprocessState × Int :=
  match execution_loop_iter st tl e with
  | Except.ok (st2, tl2, _, _) => (st2, tl2)
  | Except.error (st2, tl2, _) => (st2, tl2)

/-- The statuses observed after each of a sequence of steps. -/
def runStepsStatuses (st : SubprocessState) (tl : Int) :
    List StepEnv → List ProcessStatus
  | [] => []
  | e :: rest =>
    let r := stepState st tl e
    r.1.process_status :: runStepsStatuses r.1 r.2 rest

/-- A sequence of steps seen as a state transformer. -/
def runSteps (st : SubprocessState) (tl : Int) :
    List StepEnv → SubprocessState × Int
  | [] => (st, tl)
  | e :: rest =>
    let r := stepState st tl e
    runSteps r.1 r.2 rest

end Subprocess

/-- One of the public operations of a `Subprocess` object, with the
environment behaviour it needs. -/
inductive Op where
  | opStart (spawnOk : Bool) (pid : Nat)
  | opStep (e : StepEnv)
  | opStop (env : KillEnv)
  | opClose (env : KillEnv)
  deriving DecidableEq, Repr

/-- Apply one operation to a supervisor's state (threading the shared
throttle timestamp).  `start` is taken with `autoLoop=False` (the group
orchestrator's mode); the auto loop could only add `opStep`s, which do not
touch the handle. -/
def applyOp (st : SubprocessState) (tl : Int) : Op → SubprocessState × Int
  | Op.opStart ok pid => Subprocess.start st ok false tl [] pid
  | Op.opStep e => Subprocess.stepState st tl e
  | Op.opStop env => ((Subprocess.stop st env).1, tl)
  | Op.opClose env => ((Subprocess.close st env).1, tl)

/-- Run a sequence of operations from a freshly constructed supervisor. -/
def runOps (st : SubprocessState) (tl : Int) : List Op → SubprocessState × Int
  | [] => (st, tl)
  | op :: rest =>
    let r := applyOp st tl op
    runOps r.1 r.2 rest

/-- Whether, after a sequence of operations, the supervisor has been
started (with a successful spawn) and not stopped/closed since. -/
def startedNotClosed : List Op → Bool → Bool
  | [], acc => acc
  | Op.opStart ok _ :: rest, acc => startedNotClosed rest (ok || acc)
  | Op.opStep _ :: rest, acc => startedNotClosed rest acc
  | Op.opStop _ :: rest, _ => startedNotClosed rest false
  | Op.opClose _ :: rest, _ => startedNotClosed rest false

/-- Group-level observable events of `run_subprocesses`:
`stepped i evs` is a call `s.execution_loop_iter()` on supervisor `i`
emitting the supervisor events `evs`; `stopped i` is a call `s.stop()` on
supervisor `i`; `slept` is the idle 1-second sleep. -/
inductive GroupEvent where
  | stepped (id : Nat) (evs : List Event)
  | stopped (id : Nat)
  | slept
  deriving DecidableEq, Repr

/-- The inner `for s in subprocesses` loop of one pass of
`run_subprocesses`: steps every active supervisor in order, collecting the
ids whose `execution_loop_iter` returned false (`finished_processes`) and
whether any supervisor's post-step status is `FINISHED_WITH_LOG_READ` or
`RUNNING_WITH_LOG_READ` (`read_some_logs`).  An exception from any step
propagates immediately, as in the source (there is no handler). -/
def groupPass (tl : Int) (env : Nat → StepEnv) :
    List (Nat × SubprocessState) →
    Except String (Int × List (Nat × SubprocessState) × List Nat × Bool × List GroupEvent)
  | [] => Except.ok (tl, [], [], false, [])
  | (i, st) :: rest =>
    match Subprocess.execution_loop_iter st tl (env i) with
    | Except.error (_, _, msg) => Except.error msg
    | Except.ok (st2, tl2, cont, evs) =>
      match groupPass tl2 env rest with
      | Except.error msg => Except.error msg
      | Except.ok (tl3, rest2, fin, readSome, gevs) =>
        Except.ok (tl3, (i, st2) :: rest2,
          (if cont then fin else i :: fin),
          (readSome
            || decide (st2.process_status = ProcessStatus.FINISHED_WITH_LOG_READ)
            || decide (st2.process_status = ProcessStatus.RUNNING_WITH_LOG_READ)),
          GroupEvent.stepped i evs :: gevs)

/-- The `while len(subprocesses) > 0` loop of `run_subprocesses`.  `envs`
is one environment function per pass and doubles as fuel (a truncated run
just ends the trace).  When one of the finished supervisors of a pass is
essential, `stop()` is called on every remaining active supervisor and the
loop breaks. -/
def runGroup (active : List (Nat × SubprocessState)) (essential : List Nat)
    (tl : Int) : List (Nat → StepEnv) → Except String (List GroupEvent)
  | [] => Except.ok []
  | env :: rest =>
    if active.isEmpty then Except.ok []
    else
      match groupPass tl env active with
      | Except.error msg => Except.error msg
      | Except.ok (tl2, updated, finished, readSome, gevs) =>
        let remaining := updated.filter (fun p => ¬ finished.contains p.1)
        if (finished.filter (fun i => essential.contains i)) ≠ [] then
          Except.ok (gevs ++ remaining.map (fun p => GroupEvent.stopped p.1))
        else
          match runGroup remaining essential tl2 rest with
          | Except.error msg => Except.error msg
          | Except.ok tail =>
            Except.ok (gevs ++ (if readSome then [] else [GroupEvent.slept]) ++ tail)

/-- `run_subprocesses`: start every supervisor with
`auto_enter_execution_loop=False`, then run the cooperative loop. -/
def runSubprocesses (supIds : List Nat) (spawnOk : Nat → Bool)
    (essential : List Nat) (tl : Int) (envs : List (Nat → StepEnv)) :
    Except String (List GroupEvent) :=
  let started := supIds.map (fun i =>
    (i, (Subprocess.start Subprocess.initial (spawnOk i) false tl [] i).1))
  runGroup started essential tl envs

/-- The supervisor events a group trace records for supervisor `i`. -/
def steppedEvents (t : List GroupEvent) (i : Nat) : List Event :=
  t.foldr (fun g acc =>
    match g with
    | GroupEvent.stepped j evs => if j = i then evs ++ acc else acc
    | _ => acc) []

/-- The status table stated by the specification, §3: the status is a pure
function of (line read?, child exited?). -/
def statusTable (lineRead finished : Bool) : ProcessStatus :=
  match finished, lineRead with
  | true, false => ProcessStatus.FINISHED_WITH_NO_MORE_LOGS
  | true, true => ProcessStatus.FINISHED_WITH_LOG_READ
  | false, true => ProcessStatus.RUNNING_WITH_LOG_READ
  | false, false => ProcessStatus.RUNNING_WITH_NO_LOG_READ

namespace Subprocess

theorem capture_fst (line : String) (finished : Bool) :
    (capture_output_line_from_process line finished).1 =
      statusTable (decide (line ≠ "")) finished := by
  by_cases hl : line = "" <;> cases finished <;>
    simp [capture_output_line_from_process, statusTable, hl]

theorem execution_loop_iter_not_started (st : SubprocessState) (tl : Int)
    (e : StepEnv) (h : st.process = none) :
    execution_loop_iter st tl e =
      Except.error (st, tl, "Process is not started") := by
  simp [execution_loop_iter, h]

theorem execution_loop_iter_terminal (st : SubprocessState) (tl : Int)
    (e : StepEnv) (p : Nat) (hp : st.process = some p)
    (hs : st.process_status = ProcessStatus.FINISHED_WITH_NO_MORE_LOGS) :
    execution_loop_iter st tl e = Except.ok (st, tl, false, []) := by
  simp [execution_loop_iter, hp, hs]

theorem stepState_process (st : SubprocessState) (tl : Int) (e : StepEnv) :
    (stepState st tl e).1.process = st.process := by
  unfold stepState execution_loop_iter
  cases hp : st.process with
  | none => simp [hp]
  | some p =>
    by_cases hs : st.process_status = ProcessStatus.FINISHED_WITH_NO_MORE_LOGS <;>
      by_cases hr : e.condRaises = true ∧
        (check_process_conditions tl e.now e.condResponses).1.isSome = true <;>
      by_cases hf :
        (check_process_conditions tl e.now e.condResponses).1.getD [] = [] <;>
      simp [hs, hr, hf, hp]

theorem stepState_terminal (st : SubprocessState) (tl : Int) (e : StepEnv)
    (hs : st.process_status = ProcessStatus.FINISHED_WITH_NO_MORE_LOGS) :
    stepState st tl e = (st, tl) := by
  unfold stepState
  cases hp : st.process with
  | none => rw [execution_loop_iter_not_started st tl e hp]
  | some p => rw [execution_loop_iter_terminal st tl e p hp hs]

end Subprocess

/-- A benign step environment used by concrete witnesses: nothing to read,
child alive, no conditions, gate closed relative to the times used. -/
def envIdle : StepEnv :=
  { now := 10,
    line := "",
    finished := false,
    condResponses := [],
    condRaises := false,
    killEnv :=
      { alreadyExited := false,
        terminateRaises := false,
        exitsWithinPatience := true,
        trailingOutput := "" } }

/-- C8: calling `step()` (`execution_loop_iter`) on a supervisor that has
never been started raises the invalid-state `RuntimeError` with message
"Process is not started"; the error is surfaced to the caller and the
supervisor state (and the throttle timestamp) is unchanged. -/
theorem C8_step_before_start_raises (st : SubprocessState) (tl : Int)
    (e : StepEnv) (h : st.process = none) :
    Subprocess.execution_loop_iter st tl e =
      Except.error (st, tl, "Process is not started") :=
  Subprocess.execution_loop_iter_not_started st tl e h

theorem C8_witness :
    Subprocess.initial.process = none ∧
    Subprocess.execution_loop_iter Subprocess.initial 0 envIdle =
      Except.error (Subprocess.initial, 0, "Process is not started") :=
  ⟨rfl, C8_step_before_start_raises Subprocess.initial 0 envIdle rfl⟩

/-- C10: the invalid-state check in `execution_loop_iter` tests only
`self.process`; since `stop()` (and hence `close()`) clears the handle, a
supervisor that was started and then stopped or closed raises the very same
"Process is not started" error on any subsequent `step()` instead of
returning false. -/
theorem C10_step_after_stop_raises (st : SubprocessState) (tl : Int)
    (kenv : KillEnv) (e : StepEnv) :
    Subprocess.execution_loop_iter (Subprocess.stop st kenv).1 tl e =
      Except.error ((Subprocess.stop st kenv).1, tl, "Process is not started") ∧
    Subprocess.execution_loop_iter (Subprocess.close st kenv).1 tl e =
      Except.error ((Subprocess.close st kenv).1, tl, "Process is not started") := by
  have hstop : (Subprocess.stop st kenv).1.process = none := by
    unfold Subprocess.stop
    cases hp : st.process <;> simp [hp]
  exact ⟨Subprocess.execution_loop_iter_not_started _ tl e hstop,
    Subprocess.execution_loop_iter_not_started _ tl e hstop⟩

/-- C6: once the status is FINISHED_WITH_NO_MORE_LOGS, `step()` returns
false, leaves the whole state (handle, status, throttle timestamp)
unchanged and emits no event (no read, no condition evaluation, no
signal); consequently any number of repeated steps is a no-op. -/
theorem C6_terminal_step_noop (st : SubprocessState) (tl : Int) (p : Nat)
    (hp : st.process = some p)
    (hs : st.process_status = ProcessStatus.FINISHED_WITH_NO_MORE_LOGS) :
    (∀ e : StepEnv,
      Subprocess.execution_loop_iter st tl e = Except.ok (st, tl, false, [])) ∧
    (∀ envs : List StepEnv, Subprocess.runSteps st tl envs = (st, tl)) := by
  constructor
  · intro e
    exact Subprocess.execution_loop_iter_terminal st tl e p hp hs
  · intro envs
    induction envs with
    | nil => rfl
    | cons e rest ih =>
      unfold Subprocess.runSteps
      rw [Subprocess.stepState_terminal st tl e hs]
      exact ih

theorem C6_witness :
    ({ process := some 1,
       process_status := ProcessStatus.FINISHED_WITH_NO_MORE_LOGS } :
        SubprocessState).process = some 1 ∧
    Subprocess.execution_loop_iter
        { process := some 1,
          process_status := ProcessStatus.FINISHED_WITH_NO_MORE_LOGS } 0 envIdle =
      Except.ok
        ({ process := some 1,
           process_status := ProcessStatus.FINISHED_WITH_NO_MORE_LOGS }, 0,
          false, []) ∧
    Subprocess.runSteps
        { process := some 1,
          process_status := ProcessStatus.FINISHED_WITH_NO_MORE_LOGS } 0
        [envIdle, envIdle, envIdle] =
      ({ process := some 1,
         process_status := ProcessStatus.FINISHED_WITH_NO_MORE_LOGS }, 0) :=
  ⟨rfl,
    (C6_terminal_step_noop _ 0 1 rfl rfl).1 envIdle,
    (C6_terminal_step_noop _ 0 1 rfl rfl).2 [envIdle, envIdle, envIdle]⟩

namespace Subprocess

theorem runStepsStatuses_absorbing (envs : List StepEnv) :
    ∀ (st : SubprocessState) (tl : Int),
      st.process_status = ProcessStatus.FINISHED_WITH_NO_MORE_LOGS →
      ∀ s ∈ runStepsStatuses st tl envs,
        s = ProcessStatus.FINISHED_WITH_NO_MORE_LOGS := by
  induction envs with
  | nil => intro st tl _ s hmem; simp [runStepsStatuses] at hmem
  | cons e rest ih =>
    intro st tl hs s hmem
    unfold runStepsStatuses at hmem
    rw [stepState_terminal st tl e hs] at hmem
    rcases List.mem_cons.mp hmem with h | h
    · rw [h, hs]
    · exact ih st tl hs s h

end Subprocess

/-- C1: the status computed by one step of a started supervisor is exactly
the table of §3 as a function of (line read?, child exited?) — both for
`_capture_output_line_from_process` itself and for a full
`execution_loop_iter` in which no condition fails — and over any sequence
of poll outcomes, once FINISHED_WITH_NO_MORE_LOGS is reached every later
status equals it. -/
theorem C1_status_table_and_absorbing :
    (∀ (line : String) (finished : Bool),
      (Subprocess.capture_output_line_from_process line finished).1 =
        statusTable (decide (line ≠ "")) finished) ∧
    (∀ (st : SubprocessState) (tl : Int) (e : StepEnv) (p : Nat),
      st.process = some p →
      st.process_status ≠ ProcessStatus.FINISHED_WITH_NO_MORE_LOGS →
      (∀ c ∈ e.condResponses, c.successful = true) →
      e.condRaises = false →
      (Subprocess.stepState st tl e).1.process_status =
        statusTable (decide (e.line ≠ "")) e.finished) ∧
    (∀ (st : SubprocessState) (tl : Int) (envs : List StepEnv),
      st.process_status = ProcessStatus.FINISHED_WITH_NO_MORE_LOGS →
      ∀ s ∈ Subprocess.runStepsStatuses st tl envs,
        s = ProcessStatus.FINISHED_WITH_NO_MORE_LOGS) := by
  refine ⟨Subprocess.capture_fst, ?_, fun st tl envs hs =>
    Subprocess.runStepsStatuses_absorbing envs st tl hs⟩
  intro st tl e p hp hs hcond hraise
  have hex : ¬ ∃ x ∈ e.condResponses, x.successful = false := by
    rintro ⟨x, hx, hfx⟩
    rw [hcond x hx] at hfx
    cases hfx
  unfold Subprocess.stepState Subprocess.execution_loop_iter
  by_cases hg : e.now - tl < 60 <;>
    simp [hp, hs, Subprocess.check_process_conditions, hg, hraise, hex,
      Subprocess.capture_fst]

theorem C1_witness :
    (Subprocess.capture_output_line_from_process "x" true).1 =
      statusTable (decide (("x" : String) ≠ "")) true ∧
    (Subprocess.stepState
        { process := some 1,
          process_status := ProcessStatus.RUNNING_WITH_NO_LOG_READ } 0
        envIdle).1.process_status =
      statusTable (decide (envIdle.line ≠ "")) envIdle.finished ∧
    ∀ s ∈ Subprocess.runStepsStatuses
        { process := some 1,
          process_status := ProcessStatus.FINISHED_WITH_NO_MORE_LOGS } 0
        [envIdle, envIdle],
      s = ProcessStatus.FINISHED_WITH_NO_MORE_LOGS :=
  ⟨C1_status_table_and_absorbing.1 "x" true,
   C1_status_table_and_absorbing.2.1 _ 0 envIdle 1 rfl (by decide)
     (by intro c hc; simp [envIdle] at hc) rfl,
   C1_status_table_and_absorbing.2.2 _ 0 [envIdle, envIdle] rfl⟩

/-- C4 (amended): the kill protocol sends no signal when the child has
already exited; when sending the graceful signal fails it immediately
sends the forceful kill; when the child exits within the patience window
after a successfully delivered graceful signal, no forceful kill is ever
sent; and when it does not exit within the window, the forceful kill is
sent exactly once — after which `_kill` returns without any further wait
for the child to be reaped (the source performs no `wait()` after the
final `kill()`). -/
theorem C4_kill_protocol (env : KillEnv) :
    (env.alreadyExited = true → Subprocess.kill env = []) ∧
    (env.alreadyExited = false → env.terminateRaises = true →
      ∃ rest, Subprocess.kill env = Event.sigterm :: Event.sigkill :: rest) ∧
    (env.alreadyExited = false → env.terminateRaises = false →
      env.exitsWithinPatience = true →
      Event.sigkill ∉ Subprocess.kill env) ∧
    (env.alreadyExited = false → env.terminateRaises = false →
      env.exitsWithinPatience = false →
      (Subprocess.kill env).count Event.sigkill = 1 ∧
      Event.waitReap ∉ Subprocess.kill env) := by
  obtain ⟨a, t, w, o⟩ := env
  refine ⟨fun h1 => ?_, fun h1 h2 => ?_, fun h1 h2 h3 => ?_, fun h1 h2 h3 => ?_⟩
  · subst h1; rfl
  · subst h1; subst h2; exact ⟨_, rfl⟩
  · subst h1; subst h2; subst h3
    by_cases ho : o = "" <;> simp [Subprocess.kill, ho]
  · subst h1; subst h2; subst h3
    constructor <;> simp [Subprocess.kill]

/-- The environment of a `_kill` run in which the child ignores the
graceful signal until the patience window elapses. -/
def killEnvTimeout : KillEnv :=
  { alreadyExited := false,
    terminateRaises := false,
    exitsWithinPatience := false,
    trailingOutput := "" }

/-- C4 counterexample to the final conjunct of the claim: when the child
does not exit within the patience window, the source sends SIGKILL and
returns immediately — the trace ends at the forceful kill and contains no
unbounded wait for the kernel to reap the child. -/
theorem C4_counterexample :
    Subprocess.kill killEnvTimeout =
      [Event.sigterm, Event.waitPatience, Event.sigkill] ∧
    Event.waitReap ∉ Subprocess.kill killEnvTimeout := by
  constructor
  · rfl
  · decide

theorem C4_witness :
    Subprocess.kill
      { alreadyExited := true, terminateRaises := false,
        exitsWithinPatience := true, trailingOutput := "" } = [] ∧
    Event.sigkill ∉ Subprocess.kill
      { alreadyExited := false, terminateRaises := false,
        exitsWithinPatience := true, trailingOutput := "tail" } ∧
    (Subprocess.kill killEnvTimeout).count Event.sigkill = 1 :=
  ⟨(C4_kill_protocol _).1 rfl,
   (C4_kill_protocol _).2.2.1 rfl rfl rfl,
   ((C4_kill_protocol killEnvTimeout).2.2.2 rfl rfl rfl).1⟩

/-- A condition response reporting success. -/
def condOK : ProcessConditionResponse :=
  { successful := true, message := "healthy" }

/-- A condition response reporting failure. -/
def condBad : ProcessConditionResponse :=
  { successful := false, message := "unhealthy" }

/-- A started, running supervisor state. -/
def stRunning : SubprocessState :=
  { process := some 1, process_status := ProcessStatus.RUNNING_WITH_NO_LOG_READ }

/-- A step environment whose (single) condition succeeds, at time 100. -/
def stepEnvOK : StepEnv :=
  { now := 100, line := "", finished := false, condResponses := [condOK],
    condRaises := false, killEnv := killEnvTimeout }

/-- A step environment whose (single) condition fails, at time 160. -/
def stepEnvBad : StepEnv :=
  { now := 160, line := "", finished := false, condResponses := [condBad],
    condRaises := false, killEnv := killEnvTimeout }

/-- C3: when a step's condition evaluation is not throttled and at least
one condition responds `successful=false`, that very step logs the message
of every failing condition, runs the kill protocol on the child, forces
the status to FINISHED_WITH_NO_MORE_LOGS and returns false — even if the
child is still running. -/
theorem C3_condition_failure_kills (st : SubprocessState) (tl : Int)
    (e : StepEnv) (p : Nat)
    (hp : st.process = some p)
    (hs : st.process_status ≠ ProcessStatus.FINISHED_WITH_NO_MORE_LOGS)
    (hg : ¬ (e.now - tl < 60))
    (hraise : e.condRaises = false)
    (hfail : e.condResponses.filter (fun c => ¬ c.successful) ≠ []) :
    Subprocess.execution_loop_iter st tl e =
      Except.ok
        ({ st with process_status := ProcessStatus.FINISHED_WITH_NO_MORE_LOGS },
          e.now, false,
          (Subprocess.capture_output_line_from_process e.line e.finished).2
            ++ [Event.checkConditions]
            ++ [Event.errorLog
                  ((e.condResponses.filter (fun c => ¬ c.successful)).map
                    (fun c => c.message))]
            ++ Subprocess.kill e.killEnv) := by
  have hex : ∃ x ∈ e.condResponses, x.successful = false := by
    rcases List.exists_mem_of_ne_nil _ hfail with ⟨c, hc⟩
    rcases List.mem_filter.mp hc with ⟨hmem, hsat⟩
    exact ⟨c, hmem, by simpa using hsat⟩
  unfold Subprocess.execution_loop_iter
  simp only [hp]
  rw [if_neg hs]
  simp [Subprocess.check_process_conditions, hg, hraise, hex]

theorem C3_witness :
    Subprocess.stepState stRunning 0 stepEnvOK = (stRunning, 100) ∧
    Subprocess.execution_loop_iter stRunning 100 stepEnvBad =
      Except.ok
        ({ stRunning with
            process_status := ProcessStatus.FINISHED_WITH_NO_MORE_LOGS },
          stepEnvBad.now, false,
          (Subprocess.capture_output_line_from_process stepEnvBad.line
              stepEnvBad.finished).2
            ++ [Event.checkConditions]
            ++ [Event.errorLog
                  ((stepEnvBad.condResponses.filter (fun c => ¬ c.successful)).map
                    (fun c => c.message))]
            ++ Subprocess.kill stepEnvBad.killEnv) :=
  ⟨by decide,
   C3_condition_failure_kills stRunning 100 stepEnvBad 1 rfl (by decide)
     (by decide) rfl (by decide)⟩

/-- C5 (amended): the throttle gate in front of `_check_process_conditions`
evaluates the conditions at most once per 60 seconds, but its timestamp is
a single closure cell created when the class body is evaluated, hence
shared process-wide by all supervisors: an invocation 60 or more seconds
after the last evaluation runs the conditions and updates the shared
timestamp; any invocation — by the same or by a different supervisor —
within 60 seconds of that evaluation is throttled and does not call
`check`; an invocation 60 or more seconds after it evaluates again. -/
theorem C5_throttle_gate (tl t1 t2 t3 : Int)
    (rs1 rs2 rs3 : List ProcessConditionResponse)
    (h1 : ¬ (t1 - tl < 60)) (h2 : t2 - t1 < 60) (h3 : ¬ (t3 - t1 < 60)) :
    Subprocess.check_process_conditions tl t1 rs1 =
      (some (rs1.filter (fun c => ¬ c.successful)), t1,
        [Event.checkConditions]) ∧
    Subprocess.check_process_conditions t1 t2 rs2 = (none, t1, []) ∧
    Subprocess.check_process_conditions t1 t3 rs3 =
      (some (rs3.filter (fun c => ¬ c.successful)), t3,
        [Event.checkConditions]) := by
  refine ⟨?_, ?_, ?_⟩ <;>
    simp [Subprocess.check_process_conditions, h1, h2, h3]

theorem C5_witness :
    Subprocess.check_process_conditions 0 100 [condBad] =
      (some [condBad], 100, [Event.checkConditions]) ∧
    Subprocess.check_process_conditions 100 130 [condBad] = (none, 100, []) ∧
    Subprocess.check_process_conditions 100 160 [condBad] =
      (some [condBad], 160, [Event.checkConditions]) := by
  have h := C5_throttle_gate 0 100 130 160 [condBad] [condBad] [condBad]
    (by decide) (by decide) (by decide)
  exact ⟨by rw [h.1]; decide, h.2.1, by rw [h.2.2]; decide⟩

/-- Supervisor 0 of the cross-suppression scenario. -/
def stSupA : SubprocessState :=
  { process := some 10, process_status := ProcessStatus.RUNNING_WITH_NO_LOG_READ }

/-- Supervisor 1 of the cross-suppression scenario. -/
def stSupB : SubprocessState :=
  { process := some 11, process_status := ProcessStatus.RUNNING_WITH_NO_LOG_READ }

/-- Step environments of one group pass at time 1000: supervisor 0's
condition succeeds, supervisor 1's condition fails. -/
def envCross : Nat → StepEnv := fun i =>
  if i = 0 then
    { now := 1000, line := "", finished := false, condResponses := [condOK],
      condRaises := false, killEnv := killEnvTimeout }
  else
    { now := 1000, line := "", finished := false, condResponses := [condBad],
      condRaises := false, killEnv := killEnvTimeout }

/-- C5 counterexample to per-supervisor independence: in a single group
pass, supervisor 0's condition evaluation at time 1000 updates the shared
throttle timestamp, so supervisor 1 — whose conditions have never been
evaluated, and whose only condition reports failure — is throttled in the
same pass: its `check` is never invoked, no kill happens, and it stays in
the active set. -/
theorem C5_counterexample :
    groupPass 0 envCross [(0, stSupA), (1, stSupB)] =
      Except.ok (1000, [(0, stSupA), (1, stSupB)], [], false,
        [GroupEvent.stepped 0 [Event.readLine, Event.checkConditions],
         GroupEvent.stepped 1 [Event.readLine]]) ∧
    condBad.successful = false ∧
    Event.checkConditions ∉
      steppedEvents
        [GroupEvent.stepped 0 [Event.readLine, Event.checkConditions],
         GroupEvent.stepped 1 [Event.readLine]] 1 := by
  refine ⟨rfl, rfl, by decide⟩

namespace Subprocess

theorem stop_process_none (st : SubprocessState) (kenv : KillEnv) :
    (stop st kenv).1.process = none := by
  unfold stop
  cases hp : st.process <;> simp [hp]

end Subprocess

theorem runOps_process_isSome (ops : List Op) :
    ∀ (st : SubprocessState) (tl : Int),
      (runOps st tl ops).1.process.isSome
        = startedNotClosed ops st.process.isSome := by
  induction ops with
  | nil => intro st tl; rfl
  | cons op rest ih =>
    intro st tl
    cases op with
    | opStart ok pid =>
      cases ok <;>
        simp [runOps, applyOp, Subprocess.start, startedNotClosed, ih]
    | opStep e =>
      show (runOps (Subprocess.stepState st tl e).1
          (Subprocess.stepState st tl e).2 rest).1.process.isSome
        = startedNotClosed rest st.process.isSome
      rw [ih, Subprocess.stepState_process]
    | opStop kenv =>
      show (runOps (Subprocess.stop st kenv).1 tl rest).1.process.isSome
        = startedNotClosed rest false
      rw [ih, Subprocess.stop_process_none]
      rfl
    | opClose kenv =>
      show (runOps (Subprocess.stop st kenv).1 tl rest).1.process.isSome
        = startedNotClosed rest false
      rw [ih, Subprocess.stop_process_none]
      rfl

/-- C9: over every sequence of `start()`, `step()`, `stop()`, `close()`
operations from a fresh supervisor, the OS handle is non-null exactly when
a successful `start()` has happened with no `stop()`/`close()` after it;
`start()` with a successful spawn sets the handle, `stop()` and `close()`
clear it, and `step()` never changes it. -/
theorem C9_handle_iff_started_not_closed :
    (∀ ops : List Op,
      (runOps Subprocess.initial 0 ops).1.process.isSome
        = startedNotClosed ops false) ∧
    (∀ (st : SubprocessState) (tl : Int) (e : StepEnv),
      (applyOp st tl (Op.opStep e)).1.process = st.process) ∧
    (∀ (st : SubprocessState) (tl : Int) (pid : Nat),
      (applyOp st tl (Op.opStart true pid)).1.process = some pid) ∧
    (∀ (st : SubprocessState) (tl : Int) (kenv : KillEnv),
      (applyOp st tl (Op.opStop kenv)).1.process = none ∧
      (applyOp st tl (Op.opClose kenv)).1.process = none) := by
  refine ⟨?_, ?_, ?_, ?_⟩
  · intro ops
    simpa using runOps_process_isSome ops Subprocess.initial 0
  · intro st tl e
    exact Subprocess.stepState_process st tl e
  · intro st tl pid
    simp [applyOp, Subprocess.start]
  · intro st tl kenv
    exact ⟨Subprocess.stop_process_none st kenv,
      Subprocess.stop_process_none st kenv⟩

/-- C2: in a `run_subprocesses` pass in which some supervisor's `step()`
returned false and that supervisor is essential — for any reason for the
false return, clean exit or condition failure — the group calls `stop()`
on every supervisor remaining in the active set right after that pass and
returns, performing no further steps on them. -/
theorem C2_essential_exit_stops_group
    (active : List (Nat × SubprocessState)) (essential : List Nat)
    (tl tl2 : Int) (env : Nat → StepEnv) (rest : List (Nat → StepEnv))
    (updated : List (Nat × SubprocessState)) (finished : List Nat)
    (readSome : Bool) (gevs : List GroupEvent)
    (hne : active ≠ [])
    (hpass : groupPass tl env active =
      Except.ok (tl2, updated, finished, readSome, gevs))
    (hess : finished.filter (fun i => essential.contains i) ≠ []) :
    runGroup active essential tl (env :: rest) =
      Except.ok (gevs ++
        (updated.filter (fun p => ¬ finished.contains p.1)).map
          (fun p => GroupEvent.stopped p.1)) := by
  have h0 : active.isEmpty = false := by
    cases active with
    | nil => cases hne rfl
    | cons a l => rfl
  unfold runGroup
  rw [h0, hpass]
  simp only [Bool.false_eq_true, if_false]
  rw [if_pos hess]

/-- The three supervisors of the essential-exit scenario, all started. -/
def grp3 : List (Nat × SubprocessState) :=
  [(0, { process := some 20,
         process_status := ProcessStatus.RUNNING_WITH_NO_LOG_READ }),
   (1, { process := some 21,
         process_status := ProcessStatus.RUNNING_WITH_NO_LOG_READ }),
   (2, { process := some 22,
         process_status := ProcessStatus.RUNNING_WITH_NO_LOG_READ })]

/-- A pass at time 1000 in which supervisor 0 exits cleanly (no output,
child exited) while supervisors 1 and 2 keep running. -/
def env3 : Nat → StepEnv := fun i =>
  { now := 1000, line := "", finished := decide (i = 0), condResponses := [],
    condRaises := false, killEnv := killEnvTimeout }

theorem C2_witness :
    runGroup grp3 [0] 0 [env3] =
      Except.ok
        [GroupEvent.stepped 0 [Event.readLine, Event.checkConditions],
         GroupEvent.stepped 1 [Event.readLine],
         GroupEvent.stepped 2 [Event.readLine],
         GroupEvent.stopped 1, GroupEvent.stopped 2] := by
  rw [C2_essential_exit_stops_group grp3 [0] 0 1000 env3 []
    [(0, { process := some 20,
           process_status := ProcessStatus.FINISHED_WITH_NO_MORE_LOGS }),
     (1, { process := some 21,
           process_status := ProcessStatus.RUNNING_WITH_NO_LOG_READ }),
     (2, { process := some 22,
           process_status := ProcessStatus.RUNNING_WITH_NO_LOG_READ })]
    [0] false
    [GroupEvent.stepped 0 [Event.readLine, Event.checkConditions],
     GroupEvent.stepped 1 [Event.readLine],
     GroupEvent.stepped 2 [Event.readLine]]
    (by decide) rfl (by decide)]
  rfl

/-- C7 (amended): an exception raised inside the execution loop that
`start()` itself runs (auto mode) is caught there — `start` returns
normally, retaining the state mutations made before the raise — but when
the group orchestrator drives `execution_loop_iter`, an exception raised
by any supervisor's step propagates out of `run_subprocesses`, which has
no handler. -/
theorem C7_exception_handling :
    (∀ (st st2 : SubprocessState) (tl tl2 : Int) (envs : List StepEnv)
        (pid : Nat) (msg : String),
      Subprocess.auto_loop
          { st with
              process := some pid,
              process_status := ProcessStatus.RUNNING_WITH_NO_LOG_READ }
          tl envs = Except.error (st2, tl2, msg) →
      Subprocess.start st true true tl envs pid = (st2, tl2)) ∧
    (∀ (i : Nat) (sst est : SubprocessState) (tl etl : Int)
        (rest : List (Nat × SubprocessState)) (env : Nat → StepEnv)
        (renvs : List (Nat → StepEnv)) (essential : List Nat) (msg : String),
      Subprocess.execution_loop_iter sst tl (env i) =
        Except.error (est, etl, msg) →
      runGroup ((i, sst) :: rest) essential tl (env :: renvs) =
        Except.error msg) := by
  constructor
  · intro st st2 tl tl2 envs pid msg h
    unfold Subprocess.start
    simp [h]
  · intro i sst est tl etl rest env renvs essential msg h
    unfold runGroup groupPass
    simp [h]

/-- A step environment in which a condition's `check` raises (with the
throttle gate open). -/
def stepEnvRaise : StepEnv :=
  { now := 1000, line := "", finished := false, condResponses := [condOK],
    condRaises := true, killEnv := killEnvTimeout }

/-- C7 counterexample: a group whose only supervisor failed to spawn (its
handle is null) makes `run_subprocesses` raise the `RuntimeError` from
`execution_loop_iter` — the exception escapes the group orchestrator. -/
theorem C7_counterexample :
    runSubprocesses [0] (fun _ => false) [] 0 [fun _ => envIdle] =
      Except.error "Process is not started" := rfl

theorem C7_witness :
    Subprocess.start Subprocess.initial true true 0 [stepEnvRaise] 1 =
      ({ process := some 1,
         process_status := ProcessStatus.RUNNING_WITH_NO_LOG_READ }, 1000) ∧
    runGroup [(0, stRunning)] [] 0 [fun _ => stepEnvRaise] =
      Except.error "condition check raised" :=
  ⟨C7_exception_handling.1 Subprocess.initial
      { process := some 1,
        process_status := ProcessStatus.RUNNING_WITH_NO_LOG_READ }
      0 1000 [stepEnvRaise] 1 "condition check raised" rfl,
   C7_exception_handling.2 0 stRunning stRunning 0 1000 []
      (fun _ => stepEnvRaise) [] [] "condition check raised" rfl⟩
